import Mathlib

/-!
Verification of the web-scraper core (src/webscraper.py).

The embedding models the Python source directly:
  - `pyStrip`    is Python str.strip.
  - `pySlice`    is the Python slice s[:n] (by code points).
  - `pyOr`       is the Python expression `x or default` on an optional string.
  - `AttrVal`    is the value a BeautifulSoup tag attribute lookup can return:
                 a plain string, or a list of strings for multi-valued
                 attributes such as class (html.parser builder).
  - `Node`       is a parsed document tree; `Node.strippedStrings` is the
                 BeautifulSoup generator stripped_strings (each text node
                 stripped, empties skipped, document order), and
                 `Node.getTextStrip` is get_text(strip=True).
  - `Soup`       packages a parsed document with its CSS select operation;
                 selector resolution is external (soupsieve), so select is
                 an oracle field that may fail with a selector error.
  - `Scraper.fetch`, `Scraper.parse`, `Scraper.scrape` embed the methods of
    class Scraper; the HTTP transport (requests.get) is an oracle argument,
    and `raise_for_status` raises exactly for status codes in [400, 600).
  - `ScraperApp.run_scrape`, `check_queue`, `PollState` embed the worker
    thread body and the polling loop of class ScraperApp; `App2State` models
    two concurrent invocations sharing the single result_queue the
    constructor creates.
-/

/-- Python str.strip on a list of characters: drop whitespace from both ends. -/
def stripList (cs : List Char) : List Char :=
  (((cs.dropWhile Char.isWhitespace).reverse.dropWhile Char.isWhitespace)).reverse

/-- Python str.strip. -/
def pyStrip (s : String) : String :=
  ⟨stripList s.data⟩

/-- Python slice s[:n], by code points. -/
def pySlice (s : String) (n : Nat) : String :=
  ⟨s.data.take n⟩

/-- Python `x or d` for an optional string x: d when x is None or empty. -/
def pyOr (x : Option String) (d : String) : String :=
  match x with
  | none => d
  | some t => if t = "" then d else t

/-- Value of a BeautifulSoup attribute lookup: a string, or a list of strings
for a multi-valued attribute such as class. -/
inductive AttrVal where
  | str : String → AttrVal
  | list : List String → AttrVal
deriving DecidableEq

/-- Whether a BeautifulSoup attribute value is a plain string. -/
def AttrVal.isStr : AttrVal → Bool
  | AttrVal.str _ => true
  | AttrVal.list _ => false

/-- Python `v or ""` applied to the result of el.get(attr): None and falsy
values (empty string, empty list) become the empty string. -/
def attrOrEmpty : Option AttrVal → AttrVal
  | none => AttrVal.str ""
  | some (AttrVal.str t) => if t = "" then AttrVal.str "" else AttrVal.str t
  | some (AttrVal.list xs) => if xs = [] then AttrVal.str "" else AttrVal.list xs

/-- A node of the parsed document: a text node, or an element with a tag
name, attributes and children. -/
inductive Node where
  | text : String → Node
  | elem : String → List (String × AttrVal) → List Node → Node

mutual

/-- BeautifulSoup stripped_strings restricted to one node: text nodes in
document order, each stripped, empties skipped. -/
def Node.strippedStrings : Node → List String
  | Node.text s => if pyStrip s = "" then [] else [pyStrip s]
  | Node.elem _ _ children => Node.strippedStringsList children

/-- stripped_strings over a list of sibling nodes, in order. -/
def Node.strippedStringsList : List Node → List String
  | [] => []
  | n :: ns => Node.strippedStrings n ++ Node.strippedStringsList ns

end

mutual

/-- The raw text nodes of a node, in document order, unprocessed. -/
def Node.texts : Node → List String
  | Node.text s => [s]
  | Node.elem _ _ children => Node.textsList children

/-- Raw text nodes over a list of sibling nodes, in order. -/
def Node.textsList : List Node → List String
  | [] => []
  | n :: ns => Node.texts n ++ Node.textsList ns

end

/-- BeautifulSoup get_text(strip=True): the stripped strings joined. -/
def Node.getTextStrip (n : Node) : String :=
  String.join n.strippedStrings

/-- The attribute list of a node (empty for a text node). -/
def Node.attrsOf : Node → List (String × AttrVal)
  | Node.text _ => []
  | Node.elem _ attrs _ => attrs

/-- BeautifulSoup el.get(attr) for an optional attribute name; get(None) is
None. -/
def Node.get (n : Node) (a : Option String) : Option AttrVal :=
  match a with
  | none => none
  | some name => List.lookup name n.attrsOf

/-- A parsed document together with its CSS select operation. The document
tree gives stripped_strings; select is the external soupsieve resolver, an
oracle that may fail on a malformed selector. -/
structure Soup where
  dom : List Node
  select : String → Except String (List Node)

/-- soup.stripped_strings for the whole document. -/
def Soup.strippedStrings (soup : Soup) : List String :=
  Node.strippedStringsList soup.dom

/-- The Python exceptions the pipeline can raise: transport failures and
HTTP status errors from requests, selector errors from soupsieve. -/
inductive PyExn where
  | transportError : String → PyExn
  | httpError : Nat → PyExn
  | selectorError : String → PyExn
deriving DecidableEq

/-- One extracted item, the ScrapeResult dataclass. Python does not enforce
the str annotation on text, so the field holds whatever parse stored. -/
structure ScrapeResult where
  index : Nat
  text : AttrVal
  attr : Option String
  snippet : String
deriving DecidableEq

/-- An HTTP response as seen by fetch: status code and body text. -/
structure Response where
  status_code : Nat
  text : String
deriving DecidableEq

/-- requests Response.raise_for_status: raises HTTPError exactly when the
status code is in [400, 600). -/
def raise_for_status (r : Response) : Except PyExn Unit :=
  if 400 ≤ r.status_code ∧ r.status_code < 600 then
    Except.error (PyExn.httpError r.status_code)
  else
    Except.ok ()

/-- Scraper.fetch: one GET through the transport oracle (requests.get, which
raises a transport error when the connection, DNS lookup or timeout fails),
then raise_for_status, then the body text. -/
def Scraper.fetch (transport : String → Except String Response) (url : String) :
    Except PyExn String :=
  match transport url with
  | Except.error e => Except.error (PyExn.transportError e)
  | Except.ok r =>
    match raise_for_status r with
    | Except.error e => Except.error e
    | Except.ok _ => Except.ok r.text

/-- The value expression of the parse loop:
el.get_text(strip=True) if attr == "text" else el.get(attr) or "". -/
def elementValue (attr : Option String) (el : Node) : AttrVal :=
  if attr = some "text" then AttrVal.str el.getTextStrip
  else attrOrEmpty (el.get attr)

/-- Scraper.parse. The soup argument stands for
BeautifulSoup(html, "html.parser") applied to the html argument of the
source method; everything after that construction is embedded directly.
Full-page mode re-strips and filters soup.stripped_strings and emits one
result per surviving string; selector mode resolves `selector or "body *"`
and emits one result per matched element with the 1-based enumerate index. -/
def Scraper.parse (soup : Soup) (selector attr : Option String)
    (scrape_all : Bool) : Except PyExn (List ScrapeResult) :=
  if scrape_all then
    Except.ok ((List.enumFrom 1
        ((soup.strippedStrings.filter (fun t => ¬ pyStrip t = "")).map pyStrip)).map
      (fun p =>
        { index := p.1, text := AttrVal.str p.2, attr := some "text",
          snippet := pySlice p.2 100 }))
  else
    match soup.select (pyOr selector "body *") with
    | Except.error e => Except.error (PyExn.selectorError e)
    | Except.ok elements =>
      Except.ok ((List.enumFrom 1 elements).map (fun p =>
        { index := p.1, text := elementValue attr p.2, attr := attr,
          snippet := pySlice (Node.getTextStrip p.2) 100 }))

/-- Scraper.scrape: fetch, then parse on the soup built from the fetched
html (toSoup stands for BeautifulSoup(html, "html.parser")). -/
def Scraper.scrape (transport : String → Except String Response)
    (toSoup : String → Soup) (url : String) (selector attr : Option String)
    (scrape_all : Bool) : Except PyExn (List ScrapeResult) :=
  match Scraper.fetch transport url with
  | Except.error e => Except.error e
  | Except.ok html => Scraper.parse (toSoup html) selector attr scrape_all

/-- A message on the result queue, the pair _run_scrape enqueues:
("success", results) or ("error", str(e)). -/
inductive Msg where
  | success : List ScrapeResult → Msg
  | error : String → Msg
deriving DecidableEq

/-- ScraperApp._run_scrape: the worker body is the try block whose outcome
is either the scrape result or any raised exception (the bare
`except Exception` clause catches every exception class, modelled by the
arbitrary error type ε rendered through str). The value is the list of
messages the worker enqueues. -/
def ScraperApp.run_scrape {ε : Type} (str : ε → String)
    (outcome : Except ε (List ScrapeResult)) : List Msg :=
  match outcome with
  | Except.ok results => [Msg.success results]
  | Except.error e => [Msg.error (str e)]

/-- State of one polling chain started by start_scrape: the queue it reads,
the messages it has consumed, and whether it is still rescheduling itself. -/
structure PollState where
  queue : List Msg
  consumed : List Msg
  active : Bool
deriving DecidableEq

/-- The poll state right after start_scrape: empty queue, nothing consumed,
the chain scheduled. -/
def initPoll : PollState := ⟨[], [], true⟩

/-- ScraperApp.check_queue: while active, a non-blocking get; on a message,
consume exactly it and stop rescheduling; on Empty, reschedule unchanged. -/
def check_queue (s : PollState) : PollState :=
  match s.active, s.queue with
  | true, m :: rest => ⟨rest, s.consumed ++ [m], false⟩
  | _, _ => s

/-- The worker completes: its messages are appended to the queue. -/
def put (s : PollState) (ms : List Msg) : PollState :=
  ⟨s.queue ++ ms, s.consumed, s.active⟩

/-- Two concurrent start_scrape invocations, A and B, of one ScraperApp:
they share the single result_queue the constructor created, and each has
its own polling chain. -/
structure App2State where
  result_queue : List Msg
  activeA : Bool
  consumedA : List Msg
  activeB : Bool
  consumedB : List Msg
deriving DecidableEq

/-- Both invocations started: shared queue empty, both chains scheduled. -/
def App2State.start : App2State := ⟨[], true, [], true, []⟩

/-- Chain A runs check_queue on the shared queue. -/
def App2State.pollA (s : App2State) : App2State :=
  match s.activeA, s.result_queue with
  | true, m :: rest =>
    { s with result_queue := rest, consumedA := s.consumedA ++ [m], activeA := false }
  | _, _ => s

/-- Chain B runs check_queue on the shared queue. -/
def App2State.pollB (s : App2State) : App2State :=
  match s.activeB, s.result_queue with
  | true, m :: rest =>
    { s with result_queue := rest, consumedB := s.consumedB ++ [m], activeB := false }
  | _, _ => s

/-- A worker (of either invocation) enqueues its message on the shared
result_queue: both invocations write to the same field of the app. -/
def App2State.putMsg (s : App2State) (m : Msg) : App2State :=
  { s with result_queue := s.result_queue ++ [m] }

theorem dropWhile_dropWhile (p : Char → Bool) :
    ∀ l : List Char, List.dropWhile p (List.dropWhile p l) = List.dropWhile p l
  | [] => rfl
  | a :: l => by
    by_cases h : p a
    · simp [List.dropWhile_cons, h, dropWhile_dropWhile p l]
    · simp [List.dropWhile_cons, h]

theorem dropWhile_length_le (p : Char → Bool) :
    ∀ l : List Char, (List.dropWhile p l).length ≤ l.length
  | [] => Nat.le_refl _
  | a :: l => by
    by_cases h : p a
    · simp only [List.dropWhile_cons_of_pos h]
      exact Nat.le_trans (dropWhile_length_le p l) (Nat.le_succ _)
    · simp [List.dropWhile_cons_of_neg h]

theorem fix_head_false (p : Char → Bool) (h0 : Char) (t : List Char)
    (hfix : List.dropWhile p (h0 :: t) = h0 :: t) : p h0 = false := by
  by_cases hp : p h0
  · rw [List.dropWhile_cons_of_pos hp] at hfix
    have hlen := dropWhile_length_le p t
    have := congrArg List.length hfix
    simp at this
    omega
  · simpa using hp

theorem dropWhile_rev_fix (p : Char → Bool) (l : List Char)
    (hfix : List.dropWhile p l = l) :
    List.dropWhile p (List.dropWhile p l.reverse).reverse
      = (List.dropWhile p l.reverse).reverse := by
  rcases hrev : (List.dropWhile p l.reverse).reverse with _ | ⟨h0, t0⟩
  · simp
  · have hsplit : l.reverse = List.takeWhile p l.reverse ++ List.dropWhile p l.reverse :=
      (List.takeWhile_append_dropWhile p l.reverse).symm
    have hl : l = (List.dropWhile p l.reverse).reverse
        ++ (List.takeWhile p l.reverse).reverse := by
      have h2 := congrArg List.reverse hsplit
      rw [List.reverse_reverse, List.reverse_append] at h2
      exact h2
    rw [hrev] at hl
    have hlcons : l = h0 :: (t0 ++ (List.takeWhile p l.reverse).reverse) := by
      simpa using hl
    rw [hlcons] at hfix
    have hh0 : p h0 = false := fix_head_false p h0 _ hfix
    simp [List.dropWhile_cons, hh0]

theorem stripList_idem (cs : List Char) : stripList (stripList cs) = stripList cs := by
  have hfix : List.dropWhile Char.isWhitespace (List.dropWhile Char.isWhitespace cs)
      = List.dropWhile Char.isWhitespace cs := dropWhile_dropWhile _ cs
  have h1 := dropWhile_rev_fix Char.isWhitespace (List.dropWhile Char.isWhitespace cs) hfix
  unfold stripList
  rw [h1, List.reverse_reverse, dropWhile_dropWhile]

theorem pyStrip_idem (s : String) : pyStrip (pyStrip s) = pyStrip s := by
  simp [pyStrip, stripList_idem]

mutual

theorem Node.strippedStrings_eq_texts (n : Node) :
    n.strippedStrings = (n.texts.map pyStrip).filter (fun t => ¬ t = "") := by
  cases n with
  | text s =>
    by_cases h : pyStrip s = "" <;>
      simp [Node.strippedStrings, Node.texts, List.filter, h]
  | elem tag attrs children =>
    simp only [Node.strippedStrings, Node.texts]
    exact Node.strippedStringsList_eq_texts children

theorem Node.strippedStringsList_eq_texts (ns : List Node) :
    Node.strippedStringsList ns
      = ((Node.textsList ns).map pyStrip).filter (fun t => ¬ t = "") := by
  cases ns with
  | nil => rfl
  | cons n ns =>
    simp only [Node.strippedStringsList, Node.textsList, List.map_append,
      List.filter_append]
    rw [Node.strippedStrings_eq_texts n, Node.strippedStringsList_eq_texts ns]

end

theorem mem_strippedStringsList (ns : List Node) (t : String)
    (h : t ∈ Node.strippedStringsList ns) : pyStrip t = t ∧ ¬ t = "" := by
  rw [Node.strippedStringsList_eq_texts] at h
  have h1 := List.of_mem_filter h
  have h2 := List.mem_of_mem_filter h
  rcases List.mem_map.mp h2 with ⟨s, _, hs⟩
  constructor
  · rw [← hs]; exact pyStrip_idem s
  · simpa using h1

theorem filter_map_pyStrip_self :
    ∀ l : List String, (∀ t ∈ l, pyStrip t = t ∧ ¬ t = "") →
      (l.filter (fun t => ¬ pyStrip t = "")).map pyStrip = l
  | [], _ => rfl
  | t :: l, h => by
    have ht := h t (List.mem_cons_self t l)
    have htail := filter_map_pyStrip_self l (fun x hx => h x (List.mem_cons_of_mem t hx))
    simp only [decide_not] at htail
    simp [List.filter_cons, ht.1, ht.2, htail]

/-- The list of surviving strings the full-page branch of parse enumerates:
it equals soup.stripped_strings itself, which in turn is the document's raw
text nodes in document order, each stripped, empties discarded. -/
theorem parse_scrapeAll_strings (soup : Soup) :
    ((soup.strippedStrings.filter (fun t => ¬ pyStrip t = "")).map pyStrip)
      = ((Node.textsList soup.dom).map pyStrip).filter (fun t => ¬ t = "") := by
  rw [filter_map_pyStrip_self soup.strippedStrings
    (fun t ht => mem_strippedStringsList soup.dom t ht)]
  exact Node.strippedStringsList_eq_texts soup.dom

/-- Unfolding equation of parse in full-page mode. -/
theorem parse_true_eq (soup : Soup) (selector attr : Option String) :
    Scraper.parse soup selector attr true
      = Except.ok ((List.enumFrom 1
          ((soup.strippedStrings.filter (fun t => ¬ pyStrip t = "")).map pyStrip)).map
        (fun p =>
          { index := p.1, text := AttrVal.str p.2, attr := some "text",
            snippet := pySlice p.2 100 })) := rfl

/-- Unfolding equation of parse in selector mode. -/
theorem parse_false_eq (soup : Soup) (selector attr : Option String) :
    Scraper.parse soup selector attr false
      = match soup.select (pyOr selector "body *") with
        | Except.error e => Except.error (PyExn.selectorError e)
        | Except.ok elements =>
          Except.ok ((List.enumFrom 1 elements).map (fun p =>
            { index := p.1, text := elementValue attr p.2, attr := attr,
              snippet := pySlice (Node.getTextStrip p.2) 100 })) := rfl

theorem pySlice_length_le (s : String) (n : Nat) : (pySlice s n).length ≤ n := by
  show (s.data.take n).length ≤ n
  rw [List.length_take]
  exact Nat.min_le_left n _

/-- C3: the pipeline is strictly sequential. When fetch fails, scrape fails
with exactly the error fetch raised, and the result does not depend on the
document parser or extractor at all (toSoup is universally quantified, so
the extractor is never consulted); when fetch succeeds, the result of
scrape is exactly the result of parse on the fetched document. -/
theorem pipeline_strictly_sequential
    (transport : String → Except String Response) (toSoup : String → Soup)
    (url : String) (selector attr : Option String) (scrape_all : Bool) :
    (∀ e, Scraper.fetch transport url = Except.error e →
      Scraper.scrape transport toSoup url selector attr scrape_all
        = Except.error e) ∧
    (∀ html, Scraper.fetch transport url = Except.ok html →
      Scraper.scrape transport toSoup url selector attr scrape_all
        = Scraper.parse (toSoup html) selector attr scrape_all) := by
  constructor
  · intro e he
    unfold Scraper.scrape
    rw [he]
  · intro html hh
    unfold Scraper.scrape
    rw [hh]

/-- Witness for C3 at concrete transports: a 404 fetch propagates as the
fetch error, a 200 fetch hands the body to parse. -/
theorem pipeline_strictly_sequential_witness :
    Scraper.scrape (fun _ => Except.ok ⟨404, "nf"⟩)
        (fun _ => ⟨[], fun _ => Except.ok []⟩) "http://e" none none false
      = Except.error (PyExn.httpError 404) ∧
    Scraper.scrape (fun _ => Except.ok ⟨200, "ok"⟩)
        (fun _ => ⟨[], fun _ => Except.ok []⟩) "http://e" none none true
      = Scraper.parse ⟨[], fun _ => Except.ok []⟩ none none true :=
  ⟨(pipeline_strictly_sequential (fun _ => Except.ok ⟨404, "nf"⟩)
      (fun _ => ⟨[], fun _ => Except.ok []⟩) "http://e" none none false).1
      (PyExn.httpError 404) rfl,
   (pipeline_strictly_sequential (fun _ => Except.ok ⟨200, "ok"⟩)
      (fun _ => ⟨[], fun _ => Except.ok []⟩) "http://e" none none true).2
      "ok" rfl⟩

/-- C4 counterexample: a 304 response is not 2xx, yet fetch succeeds and
returns the body, because raise_for_status only raises for 4xx and 5xx. -/
theorem fetch_non2xx_not_always_failure :
    Scraper.fetch (fun _ => Except.ok ⟨304, "cached"⟩) "http://e"
      = Except.ok "cached" ∧
    ¬ (200 ≤ 304 ∧ 304 < 300) :=
  ⟨rfl, by decide⟩

/-- C4 amended: fetch fails exactly when the transport cannot complete or
the status code is in [400, 600); any other status returns the body text. -/
theorem fetch_error_characterization
    (transport : String → Except String Response) (url : String) :
    (∀ e, transport url = Except.error e →
      Scraper.fetch transport url = Except.error (PyExn.transportError e)) ∧
    (∀ r, transport url = Except.ok r →
      ((400 ≤ r.status_code ∧ r.status_code < 600) →
        Scraper.fetch transport url
          = Except.error (PyExn.httpError r.status_code)) ∧
      (¬ (400 ≤ r.status_code ∧ r.status_code < 600) →
        Scraper.fetch transport url = Except.ok r.text)) := by
  refine ⟨fun e he => ?_, fun r hr => ⟨fun hs => ?_, fun hs => ?_⟩⟩
  · unfold Scraper.fetch
    rw [he]
  · simp [Scraper.fetch, hr, raise_for_status, hs]
  · simp [Scraper.fetch, hr, raise_for_status, hs]

/-- Witness for the amended C4 at a timeout, a 500 and a 200. -/
theorem fetch_error_characterization_witness :
    Scraper.fetch (fun _ => Except.error "timeout") "u"
      = Except.error (PyExn.transportError "timeout") ∧
    Scraper.fetch (fun _ => Except.ok ⟨500, "ise"⟩) "u"
      = Except.error (PyExn.httpError 500) ∧
    Scraper.fetch (fun _ => Except.ok ⟨200, "body"⟩) "u" = Except.ok "body" :=
  ⟨(fetch_error_characterization (fun _ => Except.error "timeout") "u").1
      "timeout" rfl,
   ((fetch_error_characterization (fun _ => Except.ok ⟨500, "ise"⟩) "u").2
      ⟨500, "ise"⟩ rfl).1 (by decide),
   ((fetch_error_characterization (fun _ => Except.ok ⟨200, "body"⟩) "u").2
      ⟨200, "body"⟩ rfl).2 (by decide)⟩

/-- C9: in selector mode an absent or empty selector behaves exactly as the
selector "body *", the match-every-descendant-of-body rule, because parse
resolves `selector or "body *"`. -/
theorem parse_empty_selector_default (soup : Soup) (attr : Option String) :
    Scraper.parse soup none attr false
      = Scraper.parse soup (some "body *") attr false ∧
    Scraper.parse soup (some "") attr false
      = Scraper.parse soup (some "body *") attr false :=
  ⟨rfl, rfl⟩

/-- C10: full-page mode is total. It always returns a result list, and its
result does not depend on the selector, the attribute, or the select
resolver at all, so no selector error is possible in this mode. -/
theorem parse_scrapeAll_total (soup : Soup) (selector attr : Option String) :
    (∃ rs, Scraper.parse soup selector attr true = Except.ok rs) ∧
    (∀ (selector2 attr2 : Option String)
        (select2 : String → Except String (List Node)),
      Scraper.parse ⟨soup.dom, select2⟩ selector2 attr2 true
        = Scraper.parse soup selector attr true) :=
  ⟨⟨_, rfl⟩, fun _ _ _ => rfl⟩

theorem enum_results_snippet_index {α : Type} (L : List α) (val : α → AttrVal)
    (a : Option String) (g : α → String) :
    (∀ r ∈ (List.enumFrom 1 L).map (fun p =>
        ({ index := p.1, text := val p.2, attr := a,
           snippet := pySlice (g p.2) 100 } : ScrapeResult)),
      r.snippet.length ≤ 100) ∧
    ((List.enumFrom 1 L).map (fun p =>
        ({ index := p.1, text := val p.2, attr := a,
           snippet := pySlice (g p.2) 100 } : ScrapeResult))).map ScrapeResult.index
      = List.range' 1 L.length := by
  constructor
  · intro r hr
    rcases List.mem_map.mp hr with ⟨p, _, hp⟩
    rw [← hp]
    exact pySlice_length_le _ _
  · rw [List.map_map]
    have hcomp : (ScrapeResult.index ∘ fun p : Nat × α =>
        ({ index := p.1, text := val p.2, attr := a,
           snippet := pySlice (g p.2) 100 } : ScrapeResult)) = Prod.fst :=
      funext fun p => rfl
    rw [hcomp, List.enumFrom_map_fst]

/-- C5: every result list parse returns satisfies the record invariants:
all snippets have length at most 100, and the index fields are exactly
1..N in order, where N is the length of the list. -/
theorem parse_snippet_and_index_invariant (soup : Soup)
    (selector attr : Option String) (scrape_all : Bool) (rs : List ScrapeResult)
    (h : Scraper.parse soup selector attr scrape_all = Except.ok rs) :
    (∀ r ∈ rs, r.snippet.length ≤ 100) ∧
    rs.map ScrapeResult.index = List.range' 1 rs.length := by
  cases scrape_all with
  | true =>
    rw [parse_true_eq] at h
    have hrs := (Except.ok.inj h).symm
    subst hrs
    have := enum_results_snippet_index
      ((soup.strippedStrings.filter (fun t => ¬ pyStrip t = "")).map pyStrip)
      AttrVal.str (some "text") id
    simpa using this
  | false =>
    rw [parse_false_eq] at h
    cases hsel : soup.select (pyOr selector "body *") with
    | error e =>
      rw [hsel] at h
      simp at h
    | ok els =>
      rw [hsel] at h
      have hrs := (Except.ok.inj h).symm
      subst hrs
      have := enum_results_snippet_index els (elementValue attr) attr
        Node.getTextStrip
      simpa using this

/-- Witness for C5 on a concrete one-result full-page parse. -/
theorem parse_snippet_and_index_invariant_witness :
    (∀ r ∈ [({ index := 1, text := AttrVal.str "Hi", attr := some "text",
               snippet := "Hi" } : ScrapeResult)], r.snippet.length ≤ 100) ∧
    [({ index := 1, text := AttrVal.str "Hi", attr := some "text",
        snippet := "Hi" } : ScrapeResult)].map ScrapeResult.index
      = List.range' 1 1 :=
  parse_snippet_and_index_invariant ⟨[Node.text " Hi "], fun _ => Except.ok []⟩
    none none true
    [{ index := 1, text := AttrVal.str "Hi", attr := some "text",
       snippet := "Hi" }] rfl

/-- C6 counterexample: on a document whose sole text node is 101 repetitions
of the letter a, full-page parse emits a result whose value is the full
101-character string while the snippet is the 100-character truncation, so
value and snippet differ. -/
theorem parse_scrapeAll_value_ne_snippet :
    Scraper.parse
        ⟨[Node.text (String.mk (List.replicate 101 'a'))], fun _ => Except.ok []⟩
        none none true
      = Except.ok [{ index := 1,
                     text := AttrVal.str (String.mk (List.replicate 101 'a')),
                     attr := some "text",
                     snippet := String.mk (List.replicate 100 'a') }] ∧
    ¬ AttrVal.str (String.mk (List.replicate 101 'a'))
        = AttrVal.str (String.mk (List.replicate 100 'a')) :=
  ⟨rfl, by decide⟩

/-- C6 amended: full-page parse traverses the raw text nodes of the document
in document order, strips each, discards the ones that strip to empty, and
emits one result per surviving string whose value is that string, whose
attribute is the sentinel "text", and whose snippet is the first 100
characters of the value (so value equals snippet exactly when the surviving
string has at most 100 characters). -/
theorem parse_scrapeAll_characterization (soup : Soup)
    (selector attr : Option String) :
    Scraper.parse soup selector attr true
      = Except.ok ((List.enumFrom 1
          (((Node.textsList soup.dom).map pyStrip).filter (fun t => ¬ t = ""))).map
        (fun p =>
          { index := p.1, text := AttrVal.str p.2, attr := some "text",
            snippet := pySlice p.2 100 })) := by
  rw [parse_true_eq, parse_scrapeAll_strings]

/-- C7: in selector mode, for a matched element at position i whose named
attribute (other than the sentinel "text") is absent, the emitted result has
the empty string as value, no error is raised, and the snippet is still the
trimmed text content of the element truncated to 100 characters. -/
theorem parse_missing_attribute (soup : Soup) (selector attr : Option String)
    (els : List Node) (i : Nat) (el : Node)
    (hsel : soup.select (pyOr selector "body *") = Except.ok els)
    (hattr : ¬ attr = some "text")
    (hel : els[i]? = some el)
    (habs : el.get attr = none) :
    ∃ rs, Scraper.parse soup selector attr false = Except.ok rs ∧
      rs[i]? = some { index := i + 1, text := AttrVal.str "", attr := attr,
                      snippet := pySlice el.getTextStrip 100 } := by
  refine ⟨(List.enumFrom 1 els).map (fun p =>
      { index := p.1, text := elementValue attr p.2, attr := attr,
        snippet := pySlice (Node.getTextStrip p.2) 100 }), ?_, ?_⟩
  · rw [parse_false_eq, hsel]
  · rw [List.getElem?_map, List.getElem?_enumFrom, hel]
    simp [elementValue, hattr, habs, attrOrEmpty, Nat.add_comm]

/-- Witness for C7: an anchor element with no href attribute yields the
empty value and its text as snippet. -/
theorem parse_missing_attribute_witness :
    ∃ rs, Scraper.parse
        ⟨[Node.elem "a" [] [Node.text "l"]],
         fun s => if s = "a" then Except.ok [Node.elem "a" [] [Node.text "l"]]
                  else Except.ok []⟩
        (some "a") (some "href") false = Except.ok rs ∧
      rs[0]? = some { index := 1, text := AttrVal.str "", attr := some "href",
                      snippet := "l" } :=
  parse_missing_attribute
    ⟨[Node.elem "a" [] [Node.text "l"]],
     fun s => if s = "a" then Except.ok [Node.elem "a" [] [Node.text "l"]]
              else Except.ok []⟩
    (some "a") (some "href") [Node.elem "a" [] [Node.text "l"]] 0
    (Node.elem "a" [] [Node.text "l"]) rfl (by decide) rfl rfl

/-- C8 counterexample: BeautifulSoup stores multi-valued attributes such as
class as lists, so with attribute "class" the stored value is a list of
strings, not a string. -/
theorem parse_value_list_counterexample :
    Scraper.parse
        ⟨[], fun _ => Except.ok
          [Node.elem "div" [("class", AttrVal.list ["a", "b"])] []]⟩
        (some "div") (some "class") false
      = Except.ok [{ index := 1, text := AttrVal.list ["a", "b"],
                     attr := some "class", snippet := "" }] ∧
    AttrVal.isStr (AttrVal.list ["a", "b"]) = false :=
  ⟨rfl, rfl⟩

/-- C8 amended: every value parse stores is a string (trimmed text, the
attribute value, or the empty string for an absent or falsy attribute),
except when the named attribute holds a non-empty multi-valued list, in
which case the value is exactly that list of strings. -/
theorem parse_value_string_or_multivalued (soup : Soup)
    (selector attr : Option String) (scrape_all : Bool) (rs : List ScrapeResult)
    (h : Scraper.parse soup selector attr scrape_all = Except.ok rs) :
    ∀ r ∈ rs, (∃ t, r.text = AttrVal.str t) ∨
      (∃ el xs, Node.get el attr = some (AttrVal.list xs) ∧ ¬ xs = [] ∧
        r.text = AttrVal.list xs) := by
  cases scrape_all with
  | true =>
    rw [parse_true_eq] at h
    have hrs := (Except.ok.inj h).symm
    subst hrs
    intro r hr
    rcases List.mem_map.mp hr with ⟨p, _, hp⟩
    exact Or.inl ⟨p.2, by rw [← hp]⟩
  | false =>
    rw [parse_false_eq] at h
    cases hsel : soup.select (pyOr selector "body *") with
    | error e =>
      rw [hsel] at h
      simp at h
    | ok els =>
      rw [hsel] at h
      have hrs := (Except.ok.inj h).symm
      subst hrs
      intro r hr
      rcases List.mem_map.mp hr with ⟨p, _, hp⟩
      have hval : r.text = elementValue attr p.2 := by rw [← hp]
      rw [hval]
      unfold elementValue
      by_cases hattr : attr = some "text"
      · rw [if_pos hattr]
        exact Or.inl ⟨_, rfl⟩
      · rw [if_neg hattr]
        cases hget : p.2.get attr with
        | none => exact Or.inl ⟨"", rfl⟩
        | some v =>
          cases v with
          | str t =>
            by_cases ht : t = ""
            · exact Or.inl ⟨"", by simp [attrOrEmpty, ht]⟩
            · exact Or.inl ⟨t, by simp [attrOrEmpty, ht]⟩
          | list xs =>
            by_cases hxs : xs = []
            · exact Or.inl ⟨"", by simp [attrOrEmpty, hxs]⟩
            · refine Or.inr ⟨p.2, xs, hget, hxs, by simp [attrOrEmpty, hxs]⟩

/-- Witness for the amended C8 on the concrete class-list element. -/
theorem parse_value_string_or_multivalued_witness :
    (∃ t, ({ index := 1, text := AttrVal.list ["a", "b"], attr := some "class",
             snippet := "" } : ScrapeResult).text = AttrVal.str t) ∨
    (∃ el xs, Node.get el (some "class") = some (AttrVal.list xs) ∧
      ¬ xs = [] ∧
      ({ index := 1, text := AttrVal.list ["a", "b"], attr := some "class",
         snippet := "" } : ScrapeResult).text = AttrVal.list xs) :=
  parse_value_string_or_multivalued
    ⟨[], fun _ => Except.ok
      [Node.elem "div" [("class", AttrVal.list ["a", "b"])] []]⟩
    (some "div") (some "class") false
    [{ index := 1, text := AttrVal.list ["a", "b"], attr := some "class",
       snippet := "" }] rfl
    { index := 1, text := AttrVal.list ["a", "b"], attr := some "class",
      snippet := "" }
    (List.mem_singleton_self _)

/-- C1: for one invocation, the worker enqueues exactly one Outcome message
whatever the outcome of the pipeline is, including an error of any
exception type (the bare except clause catches every raised error), and the
polling chain consumes exactly that one message and nothing else: after any
number of empty polls before the message arrives and at least one poll
after, the chain has consumed exactly the one enqueued message, the queue
is empty, and further polls change nothing because the chain stopped. -/
theorem worker_exactly_one_outcome {ε : Type} (str : ε → String)
    (outcome : Except ε (List ScrapeResult)) (k n : Nat) (hn : 1 ≤ n) :
    (ScraperApp.run_scrape str outcome).length = 1 ∧
    (check_queue^[n] (put (check_queue^[k] initPoll)
        (ScraperApp.run_scrape str outcome))).consumed
      = ScraperApp.run_scrape str outcome ∧
    (check_queue^[n] (put (check_queue^[k] initPoll)
        (ScraperApp.run_scrape str outcome))).queue = [] := by
  obtain ⟨m, hm⟩ : ∃ m, ScraperApp.run_scrape str outcome = [m] := by
    cases outcome with
    | ok results => exact ⟨Msg.success results, rfl⟩
    | error e => exact ⟨Msg.error (str e), rfl⟩
  have hinit : check_queue^[k] initPoll = initPoll :=
    Function.iterate_fixed rfl k
  have hstep : check_queue (put initPoll [m]) = ⟨[], [m], false⟩ := rfl
  have hfix : check_queue (⟨[], [m], false⟩ : PollState) = ⟨[], [m], false⟩ := rfl
  obtain ⟨j, rfl⟩ : ∃ j, n = j + 1 := ⟨n - 1, by omega⟩
  rw [hinit, hm, Function.iterate_succ_apply, hstep,
    Function.iterate_fixed hfix j]
  exact ⟨rfl, rfl, rfl⟩

/-- Witness for C1: a worker that raised an error, two empty polls before
the message arrives, three polls after. -/
theorem worker_exactly_one_outcome_witness :
    (ScraperApp.run_scrape id (Except.error "boom")).length = 1 ∧
    (check_queue^[3] (put (check_queue^[2] initPoll)
        (ScraperApp.run_scrape id (Except.error "boom")))).consumed
      = ScraperApp.run_scrape id (Except.error "boom") ∧
    (check_queue^[3] (put (check_queue^[2] initPoll)
        (ScraperApp.run_scrape id (Except.error "boom")))).queue = [] :=
  worker_exactly_one_outcome id (Except.error "boom") 2 3 (by decide)

/-- C2 counterexample: two concurrent invocations of one app share the
single result_queue the constructor created. Invocation A is still running
when invocation B finishes and enqueues its Failure; the chain A scheduled
then consumes the Failure of B, which differs from the Success A later
enqueues, so outcome deliveries of concurrent invocations do interact and
no invocation has a channel of its own. -/
theorem shared_queue_cross_delivery :
    (App2State.pollB (App2State.putMsg
        (App2State.pollA (App2State.putMsg App2State.start
          (Msg.error "404 Client Error")))
        (Msg.success []))).consumedA = [Msg.error "404 Client Error"] ∧
    (App2State.pollB (App2State.putMsg
        (App2State.pollA (App2State.putMsg App2State.start
          (Msg.error "404 Client Error")))
        (Msg.success []))).consumedB = [Msg.success []] ∧
    ¬ Msg.error "404 Client Error" = Msg.success ([] : List ScrapeResult) :=
  ⟨rfl, rfl, by decide⟩

/-- C2 amended: all invocations enqueue into the one result_queue created at
construction, in completion order, and a poll chain scheduled by one
invocation consumes whichever message is first in the shared queue, so with
two in-flight invocations the chain of A can deliver the Outcome of B and
conversely. -/
theorem shared_queue_interaction (mA mB : Msg) :
    (App2State.putMsg (App2State.putMsg App2State.start mB) mA).result_queue
      = [mB, mA] ∧
    (App2State.pollB (App2State.putMsg (App2State.pollA
        (App2State.putMsg App2State.start mB)) mA)).consumedA = [mB] ∧
    (App2State.pollB (App2State.putMsg (App2State.pollA
        (App2State.putMsg App2State.start mB)) mA)).consumedB = [mA] :=
  ⟨rfl, rfl, rfl⟩
